import Mathlib

/-!
Shallow embedding of the two Flask handler variants of this repository
(`app.py` and `backend/app.py`): a YouTube-download HTTP facade.

HTTP handlers are modelled as pure functions from the parsed JSON body and
the behaviour of the extraction collaborator (yt-dlp) to a result record
recording the status code, whether the collaborator was invoked, which file
was streamed, and which filesystem side effects (immediate directory
deletion, deferred cleanup timer) occurred.  The collaborator itself is out
of scope (per the spec) and enters as an `Except` parameter.  Python dict
fields are modelled as `Option`; an absent key stands for a key that is
missing from the yt-dlp result dict.  Python string truthiness (`if not
url`) is modelled explicitly: both a missing key and the empty string are
falsy.
-/

/-- Character-list test: `needle` occurs at the start of `hay`.  Basis for
the model of the Python substring operator. -/
def subAt : List Char → List Char → Bool
  | [], _ => true
  | _ :: _, [] => false
  | a :: as, b :: bs => a == b && subAt as bs

/-- Character-list test: `needle` occurs somewhere in `hay`. -/
def subSomewhere (needle : List Char) : List Char → Bool
  | [] => needle.isEmpty
  | b :: bs => subAt needle (b :: bs) || subSomewhere needle bs

/-- Model of the Python expression `sub in s` on strings. -/
def strHasSubstr (s sub : String) : Bool :=
  subSomewhere sub.toList s.toList

/-- Model of `s.startswith(pre)` / a `glob("pre*")` name match. -/
def strStarts (s pre : String) : Bool :=
  subAt pre.toList s.toList

/-- Model of `s.endswith(suffix)`. -/
def strEnds (s suf : String) : Bool :=
  subAt suf.toList.reverse s.toList.reverse

/-- The URL validation of `app.py` (used by its video-info and download
handlers): `youtube.com in url or youtu.be in url`. -/
def validYoutubeUrl (u : String) : Bool :=
  strHasSubstr u "youtube.com" || strHasSubstr u "youtu.be"

/-- Python truthiness of an optional string (`if not url`): a missing key
and the empty string are both falsy. -/
def pyTruthy : Option String → Bool
  | none => false
  | some s => !(s == "")

/-- An entry of the allocated download directory as seen by
`os.listdir` + `os.path.isfile`: a name, a byte size, and whether the
entry is a regular file. -/
structure FileEntry where
  name : String
  size : Nat
  isFile : Bool
deriving DecidableEq, Repr

/-- Ordering used by the selection in `app.py`
(`file_sizes.sort(key=lambda x: x[1], reverse=True)`): byte size,
descending. -/
def sizeGe (a b : FileEntry) : Prop := b.size ≤ a.size

instance : DecidableRel sizeGe := fun a b => Nat.decLe b.size a.size

instance : IsTotal FileEntry sizeGe := ⟨fun a b => Nat.le_total b.size a.size⟩

instance : IsTrans FileEntry sizeGe := ⟨fun _ _ _ h1 h2 => Nat.le_trans h2 h1⟩

/-- Model of the selection in `app.py`:
`file_sizes.sort(key=lambda x: x[1], reverse=True); file_sizes[0]`.
Python sort is stable, and `reverse=True` keeps the original order of
equal-sized files; a stable sort under the reflexive comparison
`b.size ≤ a.size` reproduces exactly that order. -/
def pickLargest (files : List FileEntry) : Option FileEntry :=
  (files.insertionSort sizeGe).head?

/-- MIME type selection of `app.py` by filename suffix. -/
def mimeFor (filename : String) : String :=
  if strEnds filename ".mp3" then "audio/mpeg"
  else if strEnds filename ".mp4" then "video/mp4"
  else if strEnds filename ".webm" then "video/webm"
  else "application/octet-stream"

/-- The `quality_map` dict of `app.py` together with the default of the
surrounding lookup, whose fallback is `best[filesize<100M]/best`. -/
def quality_map_app (q : String) : String :=
  if q == "best" then "best[filesize<100M]/best[height<=1080]"
  else if q == "720p" then "best[height<=720][filesize<80M]/best[height<=720]"
  else if q == "480p" then "best[height<=480][filesize<50M]/best[height<=480]"
  else if q == "360p" then "best[height<=360][filesize<30M]/best[height<=360]"
  else if q == "worst" then "worst[filesize<20M]/worst"
  else "best[filesize<100M]/best"

/-- The `quality_map` dict of `backend/app.py` together with the default of
the surrounding lookup, whose fallback is `best[filesize<50M]/best`. -/
def quality_map_backend (q : String) : String :=
  if q == "best" then "best[filesize<50M]/best"
  else if q == "720p" then "best[height<=720][filesize<50M]/best[height<=720]"
  else if q == "480p" then "best[height<=480][filesize<50M]/best[height<=480]"
  else if q == "360p" then "best[height<=360][filesize<50M]/best[height<=360]"
  else if q == "worst" then "worst"
  else "best[filesize<50M]/best"

/-- Parsed JSON body of a download request.  `dtype` models the JSON field
named `type` (a Lean keyword); `none` models a missing key, for which the
code substitutes the defaults `video` and `best` via `data.get`. -/
structure DownloadRequest where
  url : Option String := none
  dtype : Option String := none
  quality : Option String := none
deriving DecidableEq, Repr

/-- The one-shot deferred cleanup task `cleanup_later`: sleeps
`delaySeconds` (fixed 60 in both variants) and then recursively deletes
`dir`, ignoring errors. -/
structure CleanupTimer where
  delaySeconds : Nat
  dir : String
deriving DecidableEq, Repr

/-- Failure of the extraction collaborator: `yt_dlp.DownloadError` or any
other exception (the two are caught by distinct `except` clauses in
`app.py`). -/
inductive CollabErr
  | downloadError (msg : String)
  | otherError (msg : String)
deriving DecidableEq, Repr

/-- Observable outcome of one download request: HTTP status, whether the
collaborator ran, whether a temp directory was allocated, the format
selection expression and audio postprocessor passed to the collaborator,
the streamed file and its MIME type, whether the handler deleted the
directory before returning, and the deferred cleanup timer it scheduled
(if any). -/
structure DownloadResult where
  status : Nat
  collabInvoked : Bool
  dirAllocated : Bool
  formatExpr : Option String
  audioPost : Bool
  streamed : Option FileEntry
  mimetype : Option String
  dirDeletedNow : Bool
  timer : Option CleanupTimer
deriving DecidableEq, Repr

/-- The `download_video` handler of `app.py`.  `body` is the parsed JSON
(`none` when `request.get_json()` yields nothing), `collab` the outcome of
`ydl.extract_info(url, download=True)` — on success the resulting listing
of the allocated directory `dirName` — and `maxFileSize` the configured
`MAX_FILE_SIZE` in bytes. -/
def download_video_app (body : Option DownloadRequest)
    (collab : Except CollabErr (List FileEntry))
    (maxFileSize : Nat) (dirName : String) : DownloadResult :=
  match body with
  | none => ⟨400, false, false, none, false, none, none, false, none⟩
  | some req =>
    if !(pyTruthy req.url) then
      ⟨400, false, false, none, false, none, none, false, none⟩
    else
      let u := req.url.getD ""
      if !(validYoutubeUrl u) then
        ⟨400, false, false, none, false, none, none, false, none⟩
      else
        let dtype := req.dtype.getD "video"
        let quality := req.quality.getD "best"
        let fexpr := if dtype == "audio" then "bestaudio/best" else quality_map_app quality
        let apost := dtype == "audio"
        match collab with
        | .error (.downloadError _) =>
          ⟨400, true, true, some fexpr, apost, none, none, true, none⟩
        | .error (.otherError _) =>
          ⟨500, true, true, some fexpr, apost, none, none, true, none⟩
        | .ok listing =>
          let files := listing.filter (·.isFile)
          match pickLargest files with
          | none =>
            ⟨500, true, true, some fexpr, apost, none, none, false, none⟩
          | some chosen =>
            if chosen.size > maxFileSize then
              ⟨413, true, true, some fexpr, apost, none, none, false, none⟩
            else
              ⟨200, true, true, some fexpr, apost, some chosen,
                some (mimeFor chosen.name), false, some ⟨60, dirName⟩⟩

/-- The hardcoded 100MB size limit of `backend/app.py`
(`100 * 1024 * 1024`). -/
def backendSizeLimit : Nat := 100 * 1024 * 1024

/-- The `download_video` handler of `backend/app.py`.  Differences from the
primary variant, read off the source: no host validation; a missing JSON
body raises inside `data.get` and becomes a 500; the `finally` block
schedules the 60-second cleanup timer on every path that allocated the
directory, failures included; the streamed file is `downloaded_files[0]`
(the first listing entry, not the largest); any exception, collaborator
failures included, becomes a 500; the MIME type is always
`application/octet-stream`. -/
def download_video_backend (body : Option DownloadRequest)
    (collab : Except CollabErr (List FileEntry))
    (dirName : String) : DownloadResult :=
  match body with
  | none => ⟨500, false, false, none, false, none, none, false, none⟩
  | some req =>
    if !(pyTruthy req.url) then
      ⟨400, false, false, none, false, none, none, false, none⟩
    else
      let dtype := req.dtype.getD "video"
      let quality := req.quality.getD "best"
      let fexpr := if dtype == "audio" then "bestaudio/best" else quality_map_backend quality
      let apost := dtype == "audio"
      match collab with
      | .error _ =>
        ⟨500, true, true, some fexpr, apost, none, none, false, some ⟨60, dirName⟩⟩
      | .ok listing =>
        let files := listing.filter (·.isFile)
        match files.head? with
        | none =>
          ⟨500, true, true, some fexpr, apost, none, none, false, some ⟨60, dirName⟩⟩
        | some chosen =>
          if chosen.size > backendSizeLimit then
            ⟨413, true, true, some fexpr, apost, none, none, false, some ⟨60, dirName⟩⟩
          else
            ⟨200, true, true, some fexpr, apost, some chosen,
              some "application/octet-stream", false, some ⟨60, dirName⟩⟩

/-- A raw format dict from the collaborator result (the formats list of
the metadata dict),
restricted to the keys the endpoints read.  `none` stands for a missing
key (yt-dlp omits unavailable keys). -/
structure RawFormat where
  format_id : Option String := none
  ext : Option String := none
  resolution : Option String := none
  height : Option Nat := none
  filesize : Option Nat := none
  vcodec : Option String := none
  acodec : Option String := none
  fps : Option ℚ := none
deriving DecidableEq, Repr

/-- The dedup key of `app.py`: the tuple
the height, the extension, and the video-or-audio kind, where the kind is
audio exactly when the vcodec field equals the string none. -/
def formatKey (f : RawFormat) : Option Nat × Option String × String :=
  (f.height, f.ext, if f.vcodec == some "none" then "audio" else "video")

/-- The shaped format object appended by `app.py` for each kept raw
format.  `filesize_mb` models `round(filesize/1024/1024, 1)` as the exact
rational (the one-decimal display rounding of the float is elided; no
claim concerns this field); per Python truthiness, a missing or zero
`filesize` yields `None`. -/
structure FormatEntry where
  format_id : Option String
  ext : Option String
  resolution : String
  height : Option Nat
  filesize : Option Nat
  filesize_mb : Option ℚ
  vcodec : Option String
  acodec : Option String
  fps : Option ℚ
  type : String
deriving DecidableEq, Repr

/-- Shape one raw format into the response object of `app.py`. -/
def shapeFormat (f : RawFormat) : FormatEntry :=
  { format_id := f.format_id
    ext := f.ext
    resolution := f.resolution.getD (if f.vcodec == some "none" then "audio only" else "unknown")
    height := f.height
    filesize := f.filesize
    filesize_mb := match f.filesize with
      | some s => if s = 0 then none else some ((s : ℚ) / (1024 * 1024))
      | none => none
    vcodec := f.vcodec
    acodec := f.acodec
    fps := f.fps
    type := if f.vcodec == some "none" then "audio" else "video" }

/-- The dedup key as read back from a shaped response entry. -/
def eKey (e : FormatEntry) : Option Nat × Option String × String :=
  (e.height, e.ext, e.type)

/-- The dedup loop of `app.py`: walk the raw formats in order, keep a
format whose key is not in `seen_formats` and record its key, skip the
rest. -/
def buildFormats : List RawFormat → List (Option Nat × Option String × String) → List FormatEntry
  | [], _ => []
  | f :: rest, seen =>
    if formatKey f ∈ seen then buildFormats rest seen
    else shapeFormat f :: buildFormats rest (formatKey f :: seen)

/-- The sort key of `app.py`:
a pair of the audio-kind flag and the negated height (a missing or zero
height counts as 0), comparing tuples
the way Python does (False before True, then the ascending integer). -/
def sortKeyA (e : FormatEntry) : Bool × Int :=
  (e.type == "audio", -(Int.ofNat (e.height.getD 0)))

/-- Lexicographic comparison of Python sort-key tuples `(bool, int)`. -/
def pairLe (x y : Bool × Int) : Prop :=
  (x.1 = false ∧ y.1 = true) ∨ (x.1 = y.1 ∧ x.2 ≤ y.2)

instance : DecidableRel pairLe := fun x y => by
  unfold pairLe
  infer_instance

/-- The ordering of the `formats.sort(...)` call in `app.py`. -/
def fmtRel (a b : FormatEntry) : Prop := pairLe (sortKeyA a) (sortKeyA b)

instance : DecidableRel fmtRel := fun a b => by
  unfold fmtRel
  infer_instance

lemma pairLe_total (x y : Bool × Int) : pairLe x y ∨ pairLe y x := by
  unfold pairLe
  rcases hx : x.1 <;> rcases hy : y.1 <;>
    rcases Int.le_total x.2 y.2 with h | h <;> tauto

lemma pairLe_trans {x y z : Bool × Int} (h1 : pairLe x y) (h2 : pairLe y z) :
    pairLe x z := by
  unfold pairLe at *
  rcases h1 with ⟨ha, hb⟩ | ⟨he, hle⟩ <;> rcases h2 with ⟨hb2, hc⟩ | ⟨he2, hle2⟩
  · rw [hb] at hb2
    exact absurd hb2 (by simp)
  · left
    exact ⟨ha, by rw [← he2]; exact hb⟩
  · left
    exact ⟨by rw [he]; exact hb2, hc⟩
  · right
    exact ⟨he.trans he2, hle.trans hle2⟩

instance : IsTotal FormatEntry fmtRel := ⟨fun _ _ => pairLe_total _ _⟩

instance : IsTrans FormatEntry fmtRel := ⟨fun _ _ _ h1 h2 => pairLe_trans h1 h2⟩

/-- Parsed JSON body of a formats or video-info request. -/
structure UrlRequest where
  url : Option String := none
deriving DecidableEq, Repr

/-- Observable outcome of one formats request. -/
structure FormatsResult where
  status : Nat
  collabInvoked : Bool
  formats : List FormatEntry
deriving DecidableEq, Repr

/-- The `get_formats` handler of `app.py`: requires a JSON body and a
truthy `url` (no host validation here, unlike the video-info and download
handlers), invokes the collaborator, dedups by `formatKey` keeping first
occurrences, sorts by `fmtRel`, and truncates to 20 entries.  Any
exception becomes a 500. -/
def get_formats_app (body : Option UrlRequest)
    (collab : Except CollabErr (List RawFormat)) : FormatsResult :=
  match body with
  | none => ⟨400, false, []⟩
  | some req =>
    if !(pyTruthy req.url) then ⟨400, false, []⟩
    else
      match collab with
      | .error _ => ⟨500, true, []⟩
      | .ok raw =>
        let deduped := buildFormats raw []
        let sorted := deduped.insertionSort fmtRel
        ⟨200, true, sorted.take 20⟩

/-- The shaped format object of `backend/app.py` (fewer keys, no `height`,
`filesize_mb`, `fps` or `type`). -/
structure BFormatEntry where
  format_id : Option String
  ext : Option String
  resolution : String
  filesize : Option Nat
  vcodec : Option String
  acodec : Option String
deriving DecidableEq, Repr

/-- Shape one raw format into the response object of `backend/app.py`. -/
def shapeFormatB (f : RawFormat) : BFormatEntry :=
  { format_id := f.format_id
    ext := f.ext
    resolution := f.resolution.getD (if f.vcodec == some "none" then "audio only" else "unknown")
    filesize := f.filesize
    vcodec := f.vcodec
    acodec := f.acodec }

/-- Observable outcome of one formats request against `backend/app.py`. -/
structure BFormatsResult where
  status : Nat
  collabInvoked : Bool
  formats : List BFormatEntry
deriving DecidableEq, Repr

/-- The `get_formats` handler of `backend/app.py`: a missing JSON body
raises inside `data.get` and becomes a 500; a falsy `url` is a 400; on
success every raw format with a video or audio codec is kept, in input
order, with no dedup, no sort and no truncation. -/
def get_formats_backend (body : Option UrlRequest)
    (collab : Except CollabErr (List RawFormat)) : BFormatsResult :=
  match body with
  | none => ⟨500, false, []⟩
  | some req =>
    if !(pyTruthy req.url) then ⟨400, false, []⟩
    else
      match collab with
      | .error _ => ⟨500, true, []⟩
      | .ok raw =>
        ⟨200, true,
          (raw.filter (fun f => !(f.vcodec == some "none") || !(f.acodec == some "none"))).map shapeFormatB⟩

/-- A JSON value as it appears in the video-info response body. -/
inductive JVal
  | jnull
  | jstr (s : String)
  | jnum (n : Nat)
deriving DecidableEq, Repr

/-- JSON rendering of an optional string field (`None` becomes `null`). -/
def optStrJ : Option String → JVal
  | none => .jnull
  | some s => .jstr s

/-- JSON rendering of an optional numeric field (`None` becomes `null`). -/
def optNatJ : Option Nat → JVal
  | none => .jnull
  | some n => .jnum n

/-- Whitespace characters recognised by the Python `str.strip()`. -/
def isPySpace (c : Char) : Bool :=
  c == ' ' || c == '\t' || c == '\n' || c == '\r' || c == '\x0b' || c == '\x0c'

/-- Model of `s.strip()`. -/
def pyStrip (s : String) : String :=
  ⟨((s.toList.dropWhile isPySpace).reverse.dropWhile isPySpace).reverse⟩

/-- Model of the description truncation in both variants: the first 200
characters plus a trailing ellipsis; a missing or empty description is
falsy and yields the empty string. -/
def truncDescription : Option String → String
  | none => ""
  | some d => if d == "" then "" else String.mk (d.toList.take 200) ++ "..."

/-- The collaborator metadata dict (`ydl.extract_info(url, download=False)`),
restricted to the keys the endpoints read; `none` stands for a missing
key.  All field defaults are `none`/`[]`, so `{}` is the empty dict. -/
structure InfoDict where
  title : Option String := none
  duration : Option Nat := none
  uploader : Option String := none
  view_count : Option Nat := none
  description : Option String := none
  thumbnail : Option String := none
  upload_date : Option String := none
  formats : List RawFormat := []
  id : Option String := none
  webpage_url : Option String := none
deriving DecidableEq, Repr

/-- Observable outcome of one video-info request. -/
structure InfoResult where
  status : Nat
  collabInvoked : Bool
  fields : List (String × JVal)
deriving DecidableEq, Repr

/-- The `video_info` dict literal of `app.py`, field by field. -/
def infoFieldsApp (u : String) (info : InfoDict) : List (String × JVal) :=
  [("title", .jstr (pyStrip (info.title.getD "Unknown"))),
   ("duration", .jnum (info.duration.getD 0)),
   ("uploader", .jstr (pyStrip (info.uploader.getD "Unknown"))),
   ("view_count", optNatJ info.view_count),
   ("description", .jstr (truncDescription info.description)),
   ("thumbnail", optStrJ info.thumbnail),
   ("upload_date", optStrJ info.upload_date),
   ("formats_available", .jnum info.formats.length),
   ("id", .jstr (info.id.getD "")),
   ("webpage_url", .jstr (info.webpage_url.getD u))]

/-- The `get_video_info` handler of `app.py`: requires a JSON body, a
truthy `url` and a recognised host, then invokes the collaborator in
metadata-only mode; a `DownloadError` becomes a 400, any other exception a
500. -/
def get_video_info_app (body : Option UrlRequest)
    (collab : Except CollabErr InfoDict) : InfoResult :=
  match body with
  | none => ⟨400, false, []⟩
  | some req =>
    if !(pyTruthy req.url) then ⟨400, false, []⟩
    else
      let u := req.url.getD ""
      if !(validYoutubeUrl u) then ⟨400, false, []⟩
      else
        match collab with
        | .error (.downloadError _) => ⟨400, true, []⟩
        | .error (.otherError _) => ⟨500, true, []⟩
        | .ok info => ⟨200, true, infoFieldsApp u info⟩

/-- The `video_info` dict literal of `backend/app.py`: eight fields only
(no `id`, no `webpage_url`) and no `.strip()` on title or uploader. -/
def infoFieldsBackend (info : InfoDict) : List (String × JVal) :=
  [("title", .jstr (info.title.getD "Unknown")),
   ("duration", .jnum (info.duration.getD 0)),
   ("uploader", .jstr (info.uploader.getD "Unknown")),
   ("view_count", optNatJ info.view_count),
   ("description", .jstr (truncDescription info.description)),
   ("thumbnail", optStrJ info.thumbnail),
   ("upload_date", optStrJ info.upload_date),
   ("formats_available", .jnum info.formats.length)]

/-- The `get_video_info` handler of `backend/app.py`: a missing JSON body
raises inside `data.get` and becomes a 500; a falsy `url` is a 400; there
is no host validation, and every exception becomes a 500. -/
def get_video_info_backend (body : Option UrlRequest)
    (collab : Except CollabErr InfoDict) : InfoResult :=
  match body with
  | none => ⟨500, false, []⟩
  | some req =>
    if !(pyTruthy req.url) then ⟨400, false, []⟩
    else
      match collab with
      | .error _ => ⟨500, true, []⟩
      | .ok info => ⟨200, true, infoFieldsBackend info⟩

/-- A filesystem entry for the cleanup models: a path (for the temp-dir
listing, the basename of a direct child), whether it is a directory, and
its last-modification time in seconds. -/
structure FsEntry where
  name : String
  isDir : Bool
  mtime : Int
deriving DecidableEq, Repr

/-- An entry lies at or below `path` (itself, or a descendant). -/
def underPath (e : FsEntry) (path : String) : Bool :=
  e.name == path || strStarts e.name (path ++ "/")

/-- Model of `shutil.rmtree(path, ignore_errors=...)` on a path-keyed
listing: recursively removes the path and everything below it.  Without
`ignore_errors`, a missing path raises `FileNotFoundError`, modelled as
`Except.error`; with `ignore_errors=True` every call succeeds. -/
def rmtree (ignoreErrors : Bool) (fs : List FsEntry) (path : String) :
    Except Unit (List FsEntry) :=
  if fs.any (fun e => underPath e path) then
    .ok (fs.filter (fun e => !(underPath e path)))
  else if ignoreErrors then .ok fs
  else .error ()

/-- Firing of the `cleanup_later` timer body: after the sleep,
`shutil.rmtree(temp_dir, ignore_errors=True)` inside a `try`/`except`
that drops any exception. -/
def timerFire (t : CleanupTimer) (fs : List FsEntry) : List FsEntry :=
  match rmtree true fs t.dir with
  | .ok fs2 => fs2
  | .error _ => fs

/-- The first deletion rule of one sweep cycle in `app.py`: a
`yt_download_*` entry that is a directory and whose age exceeds 3600
seconds. -/
def staleDir (now : Int) (e : FsEntry) : Bool :=
  strStarts e.name "yt_download_" && e.isDir && decide (now - e.mtime > 3600)

/-- The second deletion rule of one sweep cycle in `app.py`: a `tmp*`
entry that is a regular file and whose age exceeds 3600 seconds. -/
def staleTmpFile (now : Int) (e : FsEntry) : Bool :=
  strStarts e.name "tmp" && !e.isDir && decide (now - e.mtime > 3600)

/-- One sweep cycle of `cleanup_old_files` in `app.py` over the temp-dir
listing: the `yt_download_*` directory loop (rmtree with
`ignore_errors=True`) followed by the `tmp*` file loop (`unlink` with
`missing_ok=True`).  The recursive deletion of a directory removes that
listing entry; its contents are not part of the temp-dir listing. -/
def sweepApp (now : Int) (fs : List FsEntry) : List FsEntry :=
  (fs.filter (fun e => !(staleDir now e))).filter (fun e => !(staleTmpFile now e))

/-- One sweep cycle of `cleanup_old_files` in `backend/app.py`: every
`yt_download_*` entry older than 3600 seconds is passed to
`Path.unlink(missing_ok=True)`.  `unlink` removes a regular file but
raises `IsADirectoryError` on a directory, and the surrounding bare
`except` then abandons the remainder of the cycle, leaving the later
entries untouched. -/
def sweepBackend (now : Int) : List FsEntry → List FsEntry
  | [] => []
  | e :: rest =>
    if strStarts e.name "yt_download_" && decide (now - e.mtime > 3600) then
      if e.isDir then e :: rest
      else sweepBackend now rest
    else e :: sweepBackend now rest

/-- The sweeper loop `while True: try: <cycle> except: ...; sleep(...)`,
run over a finite trace of wake-up times.  A cycle that raises (`none`)
leaves the filesystem as it was; the loop always continues with the next
cycle. -/
def sweeperLoop (cycle : Int → List FsEntry → Option (List FsEntry)) :
    List Int → List FsEntry → List FsEntry
  | [], fs => fs
  | t :: ts, fs => sweeperLoop cycle ts ((cycle t fs).getD fs)

lemma pickLargest_spec {l : List FileEntry} {c : FileEntry}
    (h : pickLargest l = some c) : c ∈ l ∧ ∀ g ∈ l, g.size ≤ c.size := by
  unfold pickLargest at h
  have hs : List.Sorted sizeGe (l.insertionSort sizeGe) := List.sorted_insertionSort sizeGe l
  have hp : (l.insertionSort sizeGe).Perm l := List.perm_insertionSort sizeGe l
  rcases he : l.insertionSort sizeGe with _ | ⟨x, rest⟩
  · rw [he] at h
    simp at h
  · rw [he] at h
    simp only [List.head?_cons, Option.some.injEq] at h
    subst h
    rw [he] at hs hp
    constructor
    · exact hp.mem_iff.mp (List.mem_cons_self x rest)
    · intro g hg
      rcases List.mem_cons.mp (hp.mem_iff.mpr hg) with hgx | hg3
      · rw [hgx]
      · exact List.rel_of_sorted_cons hs g hg3

/-- Claim C9: invoking the recursive delete (with errors ignored, as both
`cleanup_later` and `cleanup_old_files` do via `ignore_errors=True`) never
produces an error, and a second delete of an already-removed directory is
a harmless no-op that leaves the filesystem unchanged. -/
theorem C9_double_delete_noop :
    (∀ (fs : List FsEntry) (p : String), ∃ fs2, rmtree true fs p = .ok fs2) ∧
    (∀ (fs : List FsEntry) (p : String) (fs1 : List FsEntry),
      rmtree true fs p = .ok fs1 → rmtree true fs1 p = .ok fs1) := by
  constructor
  · intro fs p
    unfold rmtree
    split
    · exact ⟨_, rfl⟩
    · exact ⟨fs, rfl⟩
  · intro fs p fs1 h
    unfold rmtree at h ⊢
    split at h
    · injection h with h
      subst h
      have hnone : ((fs.filter (fun e => !(underPath e p))).any
          (fun e => underPath e p)) = false := by
        rw [List.any_eq_false]
        intro e he
        have h2 := (List.mem_filter.mp he).2
        simp only [Bool.not_eq_true'] at h2
        simp [h2]
      rw [hnone]
      simp
    · simp only [if_true] at h
      injection h with h
      subst h
      split
      · next hc => next hnc => exact absurd hc hnc
      · rfl

/-- Witness for C9 at a concrete filesystem: deleting
`/tmp/yt_download_a` removes its contents, and deleting it again succeeds
and changes nothing. -/
theorem C9_witness :
    rmtree true [⟨"/tmp/yt_download_a/f.mp4", false, 0⟩] "/tmp/yt_download_a" = .ok [] ∧
    rmtree true ([] : List FsEntry) "/tmp/yt_download_a" = .ok [] :=
  ⟨rfl, C9_double_delete_noop.2 [⟨"/tmp/yt_download_a/f.mp4", false, 0⟩]
    "/tmp/yt_download_a" [] rfl⟩

/-- Claim C2 counterexample: in the backend variant the streamed file is
`downloaded_files[0]`, not the largest file; with a 5-byte file listed
before a 10-byte file, the 5-byte file is streamed. -/
theorem C2_counterexample :
    (download_video_backend (some ⟨some "https://youtu.be/x", none, none⟩)
      (.ok [⟨"a.mp4", 5, true⟩, ⟨"b.mp4", 10, true⟩]) "/tmp/yt_download_b").streamed
        = some ⟨"a.mp4", 5, true⟩ ∧
    (5 : Nat) < 10 ∧
    (⟨"b.mp4", 10, true⟩ : FileEntry) ∈
      [FileEntry.mk "a.mp4" 5 true, FileEntry.mk "b.mp4" 10 true] := by
  refine ⟨by decide, by decide, by decide⟩

/-- Claim C2 (amended): on the success path of the primary variant
(`app.py`), the streamed file is one of the regular files of the directory
listing and has maximal byte size among them; the backend variant streams
the first listed file instead. -/
theorem C2_app_streams_largest (req : DownloadRequest) (listing : List FileEntry)
    (maxS : Nat) (dir : String) (c : FileEntry)
    (h : (download_video_app (some req) (.ok listing) maxS dir).streamed = some c) :
    c ∈ listing.filter (·.isFile) ∧ ∀ g ∈ listing.filter (·.isFile), g.size ≤ c.size := by
  unfold download_video_app at h
  dsimp only at h
  split at h
  · simp at h
  · split at h
    · simp at h
    · split at h
      · simp at h
      · next chosen hpick =>
        split at h
        · simp at h
        · simp only [Option.some.injEq] at h
          subst h
          exact pickLargest_spec hpick

/-- Witness for C2 (amended) at a two-file listing: the 10-byte file is
streamed and bounds both file sizes. -/
theorem C2_witness :
    (⟨"b.mp4", 10, true⟩ : FileEntry) ∈
      ([⟨"a.mp4", 5, true⟩, ⟨"b.mp4", 10, true⟩] : List FileEntry).filter (·.isFile) ∧
    ∀ g ∈ ([⟨"a.mp4", 5, true⟩, ⟨"b.mp4", 10, true⟩] : List FileEntry).filter (·.isFile),
      g.size ≤ 10 :=
  C2_app_streams_largest ⟨some "https://youtu.be/x", none, none⟩
    [⟨"a.mp4", 5, true⟩, ⟨"b.mp4", 10, true⟩] 100 "/tmp/yt_download_b2"
    ⟨"b.mp4", 10, true⟩ (by decide)

/-- Claim C4 counterexample: in the primary variant a 150MB file under the
default 100MB limit yields a 413, but the directory is neither deleted nor
scheduled for deferred cleanup — it is left for the Sweeper. -/
theorem C4_counterexample :
    (download_video_app (some ⟨some "https://youtu.be/x", none, none⟩)
      (.ok [⟨"v.mp4", 150 * 1024 * 1024, true⟩]) (100 * 1024 * 1024)
      "/tmp/yt_download_c").status = 413 ∧
    (download_video_app (some ⟨some "https://youtu.be/x", none, none⟩)
      (.ok [⟨"v.mp4", 150 * 1024 * 1024, true⟩]) (100 * 1024 * 1024)
      "/tmp/yt_download_c").dirDeletedNow = false ∧
    (download_video_app (some ⟨some "https://youtu.be/x", none, none⟩)
      (.ok [⟨"v.mp4", 150 * 1024 * 1024, true⟩]) (100 * 1024 * 1024)
      "/tmp/yt_download_c").timer = none := by
  refine ⟨by decide, by decide, by decide⟩

/-- Claim C4 (amended): an oversize selected file yields a 413 in both
variants; the primary variant neither deletes the directory nor schedules
a timer (it is left for the Sweeper), while the backend variant schedules
the 60-second deferred cleanup timer. -/
theorem C4_oversize (req : DownloadRequest) (listing : List FileEntry)
    (maxS : Nat) (dir : String) (c c2 : FileEntry)
    (hu : pyTruthy req.url = true) (hv : validYoutubeUrl (req.url.getD "") = true)
    (h1 : pickLargest (listing.filter (·.isFile)) = some c) (h2 : c.size > maxS)
    (h3 : (listing.filter (·.isFile)).head? = some c2) (h4 : c2.size > backendSizeLimit) :
    ((download_video_app (some req) (.ok listing) maxS dir).status = 413 ∧
     (download_video_app (some req) (.ok listing) maxS dir).dirDeletedNow = false ∧
     (download_video_app (some req) (.ok listing) maxS dir).timer = none) ∧
    ((download_video_backend (some req) (.ok listing) dir).status = 413 ∧
     (download_video_backend (some req) (.ok listing) dir).dirDeletedNow = false ∧
     (download_video_backend (some req) (.ok listing) dir).timer = some ⟨60, dir⟩) := by
  constructor
  · simp [download_video_app, hu, hv, h1, h2]
  · simp [download_video_backend, hu, h3, h4]

/-- Witness for C4 (amended) at a concrete 150MB single-file listing. -/
theorem C4_witness :
    ((download_video_app (some ⟨some "https://youtu.be/x", none, none⟩)
        (.ok [⟨"v.mp4", 150 * 1024 * 1024, true⟩]) (100 * 1024 * 1024)
        "/tmp/yt_download_c4").status = 413 ∧
     (download_video_app (some ⟨some "https://youtu.be/x", none, none⟩)
        (.ok [⟨"v.mp4", 150 * 1024 * 1024, true⟩]) (100 * 1024 * 1024)
        "/tmp/yt_download_c4").dirDeletedNow = false ∧
     (download_video_app (some ⟨some "https://youtu.be/x", none, none⟩)
        (.ok [⟨"v.mp4", 150 * 1024 * 1024, true⟩]) (100 * 1024 * 1024)
        "/tmp/yt_download_c4").timer = none) ∧
    ((download_video_backend (some ⟨some "https://youtu.be/x", none, none⟩)
        (.ok [⟨"v.mp4", 150 * 1024 * 1024, true⟩]) "/tmp/yt_download_c4").status = 413 ∧
     (download_video_backend (some ⟨some "https://youtu.be/x", none, none⟩)
        (.ok [⟨"v.mp4", 150 * 1024 * 1024, true⟩]) "/tmp/yt_download_c4").dirDeletedNow = false ∧
     (download_video_backend (some ⟨some "https://youtu.be/x", none, none⟩)
        (.ok [⟨"v.mp4", 150 * 1024 * 1024, true⟩]) "/tmp/yt_download_c4").timer =
       some ⟨60, "/tmp/yt_download_c4"⟩) :=
  C4_oversize ⟨some "https://youtu.be/x", none, none⟩ [⟨"v.mp4", 150 * 1024 * 1024, true⟩]
    (100 * 1024 * 1024) "/tmp/yt_download_c4" ⟨"v.mp4", 150 * 1024 * 1024, true⟩
    ⟨"v.mp4", 150 * 1024 * 1024, true⟩ (by decide) (by decide) (by decide) (by decide)
    (by decide) (by decide)

/-- Claim C5 counterexample: in the backend variant a collaborator-level
download failure after directory allocation does not delete the directory
before returning and responds 500, not 400; cleanup is only the deferred
60-second timer scheduled by the `finally` block. -/
theorem C5_counterexample :
    (download_video_backend (some ⟨some "https://youtu.be/y", none, none⟩)
      (.error (.downloadError "boom")) "/tmp/yt_download_e").status = 500 ∧
    (download_video_backend (some ⟨some "https://youtu.be/y", none, none⟩)
      (.error (.downloadError "boom")) "/tmp/yt_download_e").dirDeletedNow = false ∧
    (download_video_backend (some ⟨some "https://youtu.be/y", none, none⟩)
      (.error (.downloadError "boom")) "/tmp/yt_download_e").timer =
        some ⟨60, "/tmp/yt_download_e"⟩ := by
  refine ⟨by decide, by decide, by decide⟩

/-- Claim C5 (amended): on a collaborator-level download failure after the
directory is allocated, the primary variant deletes the directory
immediately and responds 400, while the backend variant responds 500 and
only schedules the 60-second deferred delete. -/
theorem C5_collab_failure (req : DownloadRequest) (msg : String) (maxS : Nat) (dir : String)
    (hu : pyTruthy req.url = true) (hv : validYoutubeUrl (req.url.getD "") = true) :
    ((download_video_app (some req) (.error (.downloadError msg)) maxS dir).status = 400 ∧
     (download_video_app (some req) (.error (.downloadError msg)) maxS dir).dirDeletedNow = true ∧
     (download_video_app (some req) (.error (.downloadError msg)) maxS dir).timer = none) ∧
    ((download_video_backend (some req) (.error (.downloadError msg)) dir).status = 500 ∧
     (download_video_backend (some req) (.error (.downloadError msg)) dir).dirDeletedNow = false ∧
     (download_video_backend (some req) (.error (.downloadError msg)) dir).timer =
       some ⟨60, dir⟩) := by
  constructor
  · simp [download_video_app, hu, hv]
  · simp [download_video_backend, hu]

/-- Witness for C5 (amended) at a concrete failing request. -/
theorem C5_witness :
    ((download_video_app (some ⟨some "https://youtu.be/y", none, none⟩)
        (.error (.downloadError "err")) 7 "/tmp/yt_download_e5").status = 400 ∧
     (download_video_app (some ⟨some "https://youtu.be/y", none, none⟩)
        (.error (.downloadError "err")) 7 "/tmp/yt_download_e5").dirDeletedNow = true ∧
     (download_video_app (some ⟨some "https://youtu.be/y", none, none⟩)
        (.error (.downloadError "err")) 7 "/tmp/yt_download_e5").timer = none) ∧
    ((download_video_backend (some ⟨some "https://youtu.be/y", none, none⟩)
        (.error (.downloadError "err")) "/tmp/yt_download_e5").status = 500 ∧
     (download_video_backend (some ⟨some "https://youtu.be/y", none, none⟩)
        (.error (.downloadError "err")) "/tmp/yt_download_e5").dirDeletedNow = false ∧
     (download_video_backend (some ⟨some "https://youtu.be/y", none, none⟩)
        (.error (.downloadError "err")) "/tmp/yt_download_e5").timer =
       some ⟨60, "/tmp/yt_download_e5"⟩) :=
  C5_collab_failure ⟨some "https://youtu.be/y", none, none⟩ "err" 7 "/tmp/yt_download_e5"
    (by decide) (by decide)

/-- Claim C7 counterexample: in the backend variant a failing download (no
file produced) still schedules the deferred cleanup timer, via the
`finally` block. -/
theorem C7_counterexample :
    (download_video_backend (some ⟨some "https://youtu.be/z", none, none⟩)
      (.ok []) "/tmp/yt_download_f").status = 500 ∧
    (download_video_backend (some ⟨some "https://youtu.be/z", none, none⟩)
      (.ok []) "/tmp/yt_download_f").timer = some ⟨60, "/tmp/yt_download_f"⟩ := by
  refine ⟨by decide, by decide⟩

/-- Claim C7 (amended): in the primary variant the deferred cleanup timer
is scheduled exactly once per successful download and on no other path,
sleeps 60 seconds, and its firing recursively deletes that download
directory ignoring errors; in the backend variant the timer is scheduled
on every path that reaches the collaborator, failures included. -/
theorem C7_timer_discipline (body : Option DownloadRequest)
    (collab : Except CollabErr (List FileEntry)) (maxS : Nat) (dir : String) :
    (((download_video_app body collab maxS dir).timer ≠ none) ↔
      (download_video_app body collab maxS dir).status = 200) ∧
    (∀ t, (download_video_app body collab maxS dir).timer = some t → t = ⟨60, dir⟩) ∧
    (∀ (t : CleanupTimer) (fs : List FsEntry),
      timerFire t fs = fs.filter (fun e => !(underPath e t.dir))) ∧
    ((download_video_backend body collab dir).collabInvoked = true →
      (download_video_backend body collab dir).timer = some ⟨60, dir⟩) := by
  refine ⟨?_, ?_, ?_, ?_⟩
  · unfold download_video_app
    cases body with
    | none => simp
    | some req =>
      dsimp only
      split
      · simp
      · split
        · simp
        · cases collab with
          | error e => cases e <;> simp
          | ok listing =>
            dsimp only
            split
            · simp
            · split <;> simp
  · unfold download_video_app
    cases body with
    | none => simp
    | some req =>
      dsimp only
      split
      · simp
      · split
        · simp
        · cases collab with
          | error e => cases e <;> simp
          | ok listing =>
            dsimp only
            split
            · simp
            · split <;> simp
  · intro t fs
    unfold timerFire rmtree
    by_cases hany : (fs.any fun e => underPath e t.dir) = true
    · rw [if_pos hany]
    · rw [if_neg hany]
      have hall : ∀ e ∈ fs, (!(underPath e t.dir)) = true := by
        intro e he
        rcases hcase : underPath e t.dir with _ | _
        · simp
        · exact absurd (List.any_eq_true.mpr ⟨e, he, hcase⟩) hany
      exact (List.filter_eq_self.mpr hall).symm
  · unfold download_video_backend
    cases body with
    | none => simp
    | some req =>
      dsimp only
      split
      · simp
      · cases collab with
        | error e => simp
        | ok listing =>
          dsimp only
          split
          · simp
          · split <;> simp

/-- Witness for C7 (amended) at a concrete successful download. -/
theorem C7_witness :
    (((download_video_app (some ⟨some "https://youtu.be/z", none, none⟩)
        (.ok [⟨"a.mp4", 1, true⟩]) 10 "/tmp/yt_download_f7").timer ≠ none) ↔
      (download_video_app (some ⟨some "https://youtu.be/z", none, none⟩)
        (.ok [⟨"a.mp4", 1, true⟩]) 10 "/tmp/yt_download_f7").status = 200) ∧
    (∀ t, (download_video_app (some ⟨some "https://youtu.be/z", none, none⟩)
        (.ok [⟨"a.mp4", 1, true⟩]) 10 "/tmp/yt_download_f7").timer = some t →
      t = ⟨60, "/tmp/yt_download_f7"⟩) ∧
    (∀ (t : CleanupTimer) (fs : List FsEntry),
      timerFire t fs = fs.filter (fun e => !(underPath e t.dir))) ∧
    ((download_video_backend (some ⟨some "https://youtu.be/z", none, none⟩)
        (.ok [⟨"a.mp4", 1, true⟩]) "/tmp/yt_download_f7").collabInvoked = true →
      (download_video_backend (some ⟨some "https://youtu.be/z", none, none⟩)
        (.ok [⟨"a.mp4", 1, true⟩]) "/tmp/yt_download_f7").timer =
          some ⟨60, "/tmp/yt_download_f7"⟩) :=
  C7_timer_discipline (some ⟨some "https://youtu.be/z", none, none⟩)
    (.ok [⟨"a.mp4", 1, true⟩]) 10 "/tmp/yt_download_f7"

/-- Claim C1 counterexample: the formats endpoint of the primary variant
accepts a URL without a recognized host substring and invokes the
extraction collaborator, returning 200 instead of a validation failure. -/
theorem C1_counterexample :
    (get_formats_app (some ⟨some "https://example.com/video"⟩) (.ok [])).status = 200 ∧
    (get_formats_app (some ⟨some "https://example.com/video"⟩) (.ok [])).collabInvoked = true ∧
    validYoutubeUrl "https://example.com/video" = false := by
  refine ⟨by decide, by decide, by decide⟩

/-- Claim C1 (amended): only the video-info and download handlers of the
primary variant validate the host substring: they return 400 without
invoking the collaborator when it is absent; the formats endpoint and the
backend video-info handler invoke the collaborator for any non-empty
URL. -/
theorem C1_host_validation (u : String) (ic : Except CollabErr InfoDict)
    (dc : Except CollabErr (List FileEntry)) (fc : Except CollabErr (List RawFormat))
    (ty q : Option String) (maxS : Nat) (dir : String)
    (hv : validYoutubeUrl u = false) (hne : u ≠ "") :
    ((get_video_info_app (some ⟨some u⟩) ic).status = 400 ∧
     (get_video_info_app (some ⟨some u⟩) ic).collabInvoked = false) ∧
    ((download_video_app (some ⟨some u, ty, q⟩) dc maxS dir).status = 400 ∧
     (download_video_app (some ⟨some u, ty, q⟩) dc maxS dir).collabInvoked = false) ∧
    (get_formats_app (some ⟨some u⟩) fc).collabInvoked = true ∧
    (get_video_info_backend (some ⟨some u⟩) ic).collabInvoked = true := by
  have ht : pyTruthy (some u) = true := by simp [pyTruthy, hne]
  refine ⟨?_, ?_, ?_, ?_⟩
  · simp [get_video_info_app, ht, hv]
  · simp [download_video_app, ht, hv]
  · cases fc with
    | error e => simp [get_formats_app, ht]
    | ok raw => simp [get_formats_app, ht]
  · cases ic with
    | error e => simp [get_video_info_backend, ht]
    | ok i => simp [get_video_info_backend, ht]

/-- Witness for C1 (amended) at a concrete non-YouTube URL. -/
theorem C1_witness :
    ((get_video_info_app (some ⟨some "http://vimeo.com/123"⟩)
        (.ok {} : Except CollabErr InfoDict)).status = 400 ∧
     (get_video_info_app (some ⟨some "http://vimeo.com/123"⟩)
        (.ok {} : Except CollabErr InfoDict)).collabInvoked = false) ∧
    ((download_video_app (some ⟨some "http://vimeo.com/123", none, none⟩)
        (.ok []) 9 "/tmp/yt_download_g").status = 400 ∧
     (download_video_app (some ⟨some "http://vimeo.com/123", none, none⟩)
        (.ok []) 9 "/tmp/yt_download_g").collabInvoked = false) ∧
    (get_formats_app (some ⟨some "http://vimeo.com/123"⟩) (.ok [])).collabInvoked = true ∧
    (get_video_info_backend (some ⟨some "http://vimeo.com/123"⟩)
      (.ok {} : Except CollabErr InfoDict)).collabInvoked = true :=
  C1_host_validation "http://vimeo.com/123" (.ok {}) (.ok []) (.ok []) none none 9
    "/tmp/yt_download_g" (by decide) (by decide)

/-- Claim C8 counterexample: with an empty collaborator result, the
canonical URL field defaults to the requested URL, which is neither an
empty value, nor zero, nor null, nor the string Unknown; and the backend
variant returns only eight fields, not the full ten-field set. -/
theorem C8_counterexample :
    ("webpage_url", JVal.jstr "https://youtube.com/watch?v=a") ∈
      (get_video_info_app (some ⟨some "https://youtube.com/watch?v=a"⟩) (.ok {})).fields ∧
    ¬(JVal.jstr "https://youtube.com/watch?v=a" = .jstr "" ∨
      JVal.jstr "https://youtube.com/watch?v=a" = .jnum 0 ∨
      JVal.jstr "https://youtube.com/watch?v=a" = .jstr "Unknown" ∨
      JVal.jstr "https://youtube.com/watch?v=a" = .jnull) ∧
    (get_video_info_backend (some ⟨some "https://youtube.com/watch?v=a"⟩)
      (.ok {})).fields.length = 8 := by
  refine ⟨by decide, by decide, by decide⟩

/-- Claim C8 (amended): on every successful metadata extraction the
primary variant returns exactly the ten normalized fields, and with an
empty collaborator result each defaults to an empty value, zero, null or
the string Unknown — except the canonical URL, which defaults to the
requested URL; the backend variant returns only the first eight fields (no
id, no canonical URL). -/
theorem C8_info_fields (u : String) (info : InfoDict)
    (hne : u ≠ "") (hv : validYoutubeUrl u = true) :
    (get_video_info_app (some ⟨some u⟩) (.ok info)).status = 200 ∧
    (get_video_info_app (some ⟨some u⟩) (.ok info)).fields.map Prod.fst =
      ["title", "duration", "uploader", "view_count", "description", "thumbnail",
       "upload_date", "formats_available", "id", "webpage_url"] ∧
    (info = {} → (get_video_info_app (some ⟨some u⟩) (.ok info)).fields =
      [("title", .jstr "Unknown"), ("duration", .jnum 0), ("uploader", .jstr "Unknown"),
       ("view_count", .jnull), ("description", .jstr ""), ("thumbnail", .jnull),
       ("upload_date", .jnull), ("formats_available", .jnum 0), ("id", .jstr ""),
       ("webpage_url", .jstr u)]) ∧
    (get_video_info_backend (some ⟨some u⟩) (.ok info)).fields.map Prod.fst =
      ["title", "duration", "uploader", "view_count", "description", "thumbnail",
       "upload_date", "formats_available"] := by
  have ht : pyTruthy (some u) = true := by simp [pyTruthy, hne]
  refine ⟨?_, ?_, ?_, ?_⟩
  · simp [get_video_info_app, ht, hv]
  · simp [get_video_info_app, ht, hv, infoFieldsApp]
  · intro hinfo
    subst hinfo
    have hfields : (get_video_info_app (some ⟨some u⟩) (.ok {})).fields =
        infoFieldsApp u {} := by
      simp [get_video_info_app, ht, hv]
    rw [hfields]
    rfl
  · simp [get_video_info_backend, ht, infoFieldsBackend]

/-- Witness for C8 (amended) at a concrete URL and the empty metadata
dict. -/
theorem C8_witness :
    (get_video_info_app (some ⟨some "https://youtu.be/w8"⟩)
      (.ok {} : Except CollabErr InfoDict)).status = 200 ∧
    (get_video_info_app (some ⟨some "https://youtu.be/w8"⟩)
      (.ok {} : Except CollabErr InfoDict)).fields.map Prod.fst =
      ["title", "duration", "uploader", "view_count", "description", "thumbnail",
       "upload_date", "formats_available", "id", "webpage_url"] ∧
    (({} : InfoDict) = {} → (get_video_info_app (some ⟨some "https://youtu.be/w8"⟩)
      (.ok {} : Except CollabErr InfoDict)).fields =
      [("title", .jstr "Unknown"), ("duration", .jnum 0), ("uploader", .jstr "Unknown"),
       ("view_count", .jnull), ("description", .jstr ""), ("thumbnail", .jnull),
       ("upload_date", .jnull), ("formats_available", .jnum 0), ("id", .jstr ""),
       ("webpage_url", .jstr "https://youtu.be/w8")]) ∧
    (get_video_info_backend (some ⟨some "https://youtu.be/w8"⟩)
      (.ok {} : Except CollabErr InfoDict)).fields.map Prod.fst =
      ["title", "duration", "uploader", "view_count", "description", "thumbnail",
       "upload_date", "formats_available"] :=
  C8_info_fields "https://youtu.be/w8" {} (by decide) (by decide)

/-- Claim C6 counterexample: in the backend variant a directory with the
recognized naming pattern and an age far beyond 3600 seconds survives the
sweep cycle, because `Path.unlink` cannot remove a directory and the bare
`except` abandons the cycle. -/
theorem C6_counterexample :
    sweepBackend 10000 [⟨"yt_download_abc", true, 0⟩] = [⟨"yt_download_abc", true, 0⟩] ∧
    strStarts "yt_download_abc" "yt_download_" = true ∧
    ((10000 : Int) - 0 > 3600) := by
  refine ⟨by decide, by decide, by decide⟩

/-- Claim C6 (amended): in the primary variant, a directory entry with the
recognized naming pattern is deleted by a sweep cycle exactly when its age
exceeds 3600 seconds (so it survives when its age is at most 3600), and a
sweep cycle that raises leaves the filesystem unchanged without stopping
subsequent sweeps; the backend variant can never delete such directories
at all. -/
theorem C6_sweep (now : Int) (fs : List FsEntry) (e : FsEntry)
    (he : e ∈ fs) (hp : strStarts e.name "yt_download_" = true) (hd : e.isDir = true) :
    (e ∈ sweepApp now fs ↔ now - e.mtime ≤ 3600) ∧
    (∀ (cycle : Int → List FsEntry → Option (List FsEntry)) (t : Int) (ts : List Int)
      (fs2 : List FsEntry), cycle t fs2 = none →
        sweeperLoop cycle (t :: ts) fs2 = sweeperLoop cycle ts fs2) := by
  constructor
  · unfold sweepApp
    rw [List.mem_filter, List.mem_filter]
    simp [staleDir, staleTmpFile, hp, hd, he]
  · intro cycle t ts fs2 hc
    simp [sweeperLoop, hc]

/-- Witness for C6 (amended): a fresh prefixed directory survives the
sweep, and a failing cycle does not stop the loop. -/
theorem C6_witness :
    ((⟨"yt_download_new", true, 9000⟩ : FsEntry) ∈
        sweepApp 10000 [⟨"yt_download_new", true, 9000⟩] ↔
      (10000 : Int) - 9000 ≤ 3600) ∧
    (∀ (cycle : Int → List FsEntry → Option (List FsEntry)) (t : Int) (ts : List Int)
      (fs2 : List FsEntry), cycle t fs2 = none →
        sweeperLoop cycle (t :: ts) fs2 = sweeperLoop cycle ts fs2) :=
  C6_sweep 10000 [⟨"yt_download_new", true, 9000⟩] ⟨"yt_download_new", true, 9000⟩
    (by decide) (by decide) (by decide)

/-- Claim C10: the download endpoint never rejects an unrecognized type or
quality: for any quality outside the five known labels the collaborator is
still invoked with the default best format-selection expression of the
respective variant, and any type other than audio takes the video path (no
audio postprocessor). -/
theorem C10_no_param_rejection (u ty q : String)
    (collab : Except CollabErr (List FileEntry)) (maxS : Nat) (dir : String)
    (hne : u ≠ "") (hv : validYoutubeUrl u = true)
    (hq : ¬(q = "best" ∨ q = "720p" ∨ q = "480p" ∨ q = "360p" ∨ q = "worst"))
    (ht : ty ≠ "audio") :
    ((download_video_app (some ⟨some u, some ty, some q⟩) collab maxS dir).collabInvoked = true ∧
     (download_video_app (some ⟨some u, some ty, some q⟩) collab maxS dir).formatExpr =
       some "best[filesize<100M]/best" ∧
     (download_video_app (some ⟨some u, some ty, some q⟩) collab maxS dir).audioPost = false) ∧
    ((download_video_backend (some ⟨some u, some ty, some q⟩) collab dir).collabInvoked = true ∧
     (download_video_backend (some ⟨some u, some ty, some q⟩) collab dir).formatExpr =
       some "best[filesize<50M]/best" ∧
     (download_video_backend (some ⟨some u, some ty, some q⟩) collab dir).audioPost = false) := by
  have htr : pyTruthy (some u) = true := by simp [pyTruthy, hne]
  push_neg at hq
  obtain ⟨hq1, hq2, hq3, hq4, hq5⟩ := hq
  have hqa : quality_map_app q = "best[filesize<100M]/best" := by
    simp [quality_map_app, hq1, hq2, hq3, hq4, hq5]
  have hqb : quality_map_backend q = "best[filesize<50M]/best" := by
    simp [quality_map_backend, hq1, hq2, hq3, hq4, hq5]
  cases collab with
  | error e =>
    cases e <;> constructor <;> simp [download_video_app, download_video_backend,
      htr, hv, ht, hqa, hqb]
  | ok listing =>
    constructor
    · unfold download_video_app
      simp only [Option.getD_some, htr, hv, Bool.not_true, Bool.false_eq_true, if_false]
      split
      · simp [hqa, ht]
      · split <;> simp [hqa, ht]
    · unfold download_video_backend
      simp only [Option.getD_some, htr, Bool.not_true, Bool.false_eq_true, if_false]
      split
      · simp [hqb, ht]
      · split <;> simp [hqb, ht]

/-- Witness for C10 at a concrete unrecognized quality and type. -/
theorem C10_witness :
    ((download_video_app (some ⟨some "https://youtu.be/q", some "clip", some "1080p"⟩)
        (.ok []) 5 "/tmp/yt_download_h").collabInvoked = true ∧
     (download_video_app (some ⟨some "https://youtu.be/q", some "clip", some "1080p"⟩)
        (.ok []) 5 "/tmp/yt_download_h").formatExpr = some "best[filesize<100M]/best" ∧
     (download_video_app (some ⟨some "https://youtu.be/q", some "clip", some "1080p"⟩)
        (.ok []) 5 "/tmp/yt_download_h").audioPost = false) ∧
    ((download_video_backend (some ⟨some "https://youtu.be/q", some "clip", some "1080p"⟩)
        (.ok []) "/tmp/yt_download_h").collabInvoked = true ∧
     (download_video_backend (some ⟨some "https://youtu.be/q", some "clip", some "1080p"⟩)
        (.ok []) "/tmp/yt_download_h").formatExpr = some "best[filesize<50M]/best" ∧
     (download_video_backend (some ⟨some "https://youtu.be/q", some "clip", some "1080p"⟩)
        (.ok []) "/tmp/yt_download_h").audioPost = false) :=
  C10_no_param_rejection "https://youtu.be/q" "clip" "1080p" (.ok []) 5 "/tmp/yt_download_h"
    (by decide) (by decide) (by decide) (by decide)

lemma eKey_shapeFormat (f : RawFormat) : eKey (shapeFormat f) = formatKey f := rfl

lemma buildFormats_first_occ : ∀ (raw : List RawFormat)
    (seen : List (Option Nat × Option String × String)) (e : FormatEntry),
    e ∈ buildFormats raw seen →
    ∃ pre f post, raw = pre ++ f :: post ∧ e = shapeFormat f ∧ formatKey f ∉ seen ∧
      ∀ g ∈ pre, formatKey g ≠ formatKey f := by
  intro raw
  induction raw with
  | nil =>
    intro seen e h
    simp [buildFormats] at h
  | cons f rest ih =>
    intro seen e h
    unfold buildFormats at h
    split at h
    · next hin =>
      obtain ⟨pre, f0, post, hraw, hshape, hnotin, hpre⟩ := ih seen e h
      refine ⟨f :: pre, f0, post, by rw [hraw]; rfl, hshape, hnotin, ?_⟩
      intro g hg
      rcases List.mem_cons.mp hg with hgf | hg2
      · subst hgf
        intro hk
        rw [hk] at hin
        exact hnotin hin
      · exact hpre g hg2
    · next hnin =>
      rcases List.mem_cons.mp h with hef | h2
      · exact ⟨[], f, rest, rfl, hef, hnin, by simp⟩
      · obtain ⟨pre, f0, post, hraw, hshape, hnotin, hpre⟩ :=
          ih (formatKey f :: seen) e h2
        have hne : formatKey f ≠ formatKey f0 := by
          intro hk
          exact hnotin (hk ▸ List.mem_cons_self _ _)
        refine ⟨f :: pre, f0, post, by rw [hraw]; rfl, hshape, ?_, ?_⟩
        · intro hmem
          exact hnotin (List.mem_cons_of_mem _ hmem)
        · intro g hg
          rcases List.mem_cons.mp hg with hgf | hg2
          · subst hgf
            exact hne
          · exact hpre g hg2

lemma buildFormats_distinct : ∀ (raw : List RawFormat)
    (seen : List (Option Nat × Option String × String)),
    (∀ e ∈ buildFormats raw seen, eKey e ∉ seen) ∧
    List.Pairwise (fun a b => eKey a ≠ eKey b) (buildFormats raw seen) := by
  intro raw
  induction raw with
  | nil =>
    intro seen
    simp [buildFormats]
  | cons f rest ih =>
    intro seen
    unfold buildFormats
    split
    · exact ih seen
    · next hnin =>
      obtain ⟨hmem, hpw⟩ := ih (formatKey f :: seen)
      refine ⟨?_, ?_⟩
      · intro e he
        rcases List.mem_cons.mp he with hef | he2
        · subst hef
          rw [eKey_shapeFormat]
          exact hnin
        · intro hs
          exact hmem e he2 (List.mem_cons_of_mem _ hs)
      · refine List.Pairwise.cons ?_ hpw
        intro b hb
        rw [eKey_shapeFormat]
        intro he
        exact hmem b hb (he ▸ List.mem_cons_self _ _)

lemma fmtRel_ordered {a b : FormatEntry} (h : fmtRel a b) :
    (a.type = "audio" → b.type = "audio") ∧
    (a.type ≠ "audio" → b.type ≠ "audio" → b.height.getD 0 ≤ a.height.getD 0) := by
  unfold fmtRel pairLe sortKeyA at h
  constructor
  · intro ha
    have hx : (a.type == "audio") = true := by simp [ha]
    rcases h with ⟨h1, _⟩ | ⟨h1, _⟩
    · rw [hx] at h1
      cases h1
    · rw [hx] at h1
      simpa using h1.symm
  · intro ha hb
    have hy : (b.type == "audio") = false := by simp [hb]
    rcases h with ⟨_, h2⟩ | ⟨_, h2⟩
    · rw [hy] at h2
      cases h2
    · simp only [Int.ofNat_eq_coe] at h2
      omega

/-- Claim C3 counterexample: the backend formats endpoint applies no
dedup, sort or truncation — 21 identical video formats come back as 21
entries, exceeding the claimed 20-entry bound. -/
theorem C3_counterexample :
    (get_formats_backend (some ⟨some "https://youtu.be/v"⟩)
      (.ok (List.replicate 21 { vcodec := some "avc1" }))).formats.length = 21 ∧
    ¬((get_formats_backend (some ⟨some "https://youtu.be/v"⟩)
      (.ok (List.replicate 21 { vcodec := some "avc1" }))).formats.length ≤ 20) := by
  refine ⟨by decide, by decide⟩

/-- Claim C3 (amended): the primary variant's formats endpoint returns at
most 20 entries; audio-only entries come after all video entries and video
entries are in descending height order; entries carry pairwise distinct
dedup keys (height, extension, kind); and every returned entry is shaped
from the first raw format bearing its key.  The backend variant returns
the codec-filtered raw list unchanged: no dedup, no sort, no bound. -/
theorem C3_formats_pipeline (u : String) (raw : List RawFormat) (hne : u ≠ "") :
    (get_formats_app (some ⟨some u⟩) (.ok raw)).formats.length ≤ 20 ∧
    List.Pairwise (fun a b => (a.type = "audio" → b.type = "audio") ∧
      (a.type ≠ "audio" → b.type ≠ "audio" → b.height.getD 0 ≤ a.height.getD 0))
      (get_formats_app (some ⟨some u⟩) (.ok raw)).formats ∧
    List.Pairwise (fun a b => eKey a ≠ eKey b)
      (get_formats_app (some ⟨some u⟩) (.ok raw)).formats ∧
    ∀ e ∈ (get_formats_app (some ⟨some u⟩) (.ok raw)).formats,
      ∃ pre f post, raw = pre ++ f :: post ∧ e = shapeFormat f ∧
        ∀ g ∈ pre, formatKey g ≠ formatKey f := by
  have ht : pyTruthy (some u) = true := by simp [pyTruthy, hne]
  have hform : (get_formats_app (some ⟨some u⟩) (.ok raw)).formats =
      ((buildFormats raw []).insertionSort fmtRel).take 20 := by
    simp [get_formats_app, ht]
  rw [hform]
  have hsorted : List.Sorted fmtRel ((buildFormats raw []).insertionSort fmtRel) :=
    List.sorted_insertionSort fmtRel _
  have hperm := List.perm_insertionSort fmtRel (buildFormats raw [])
  have hsub := List.take_sublist 20 ((buildFormats raw []).insertionSort fmtRel)
  refine ⟨?_, ?_, ?_, ?_⟩
  · rw [List.length_take]
    exact inf_le_left
  · exact List.Pairwise.sublist hsub (hsorted.imp fun h => fmtRel_ordered h)
  · have hpw := (buildFormats_distinct raw []).2
    have hpw2 := (hperm.pairwise_iff fun h => Ne.symm h).mpr hpw
    exact List.Pairwise.sublist hsub hpw2
  · intro e he
    have he2 : e ∈ (buildFormats raw []).insertionSort fmtRel := hsub.subset he
    have he3 : e ∈ buildFormats raw [] := hperm.mem_iff.mp he2
    obtain ⟨pre, f, post, h1, h2, _, h4⟩ := buildFormats_first_occ raw [] e he3
    exact ⟨pre, f, post, h1, h2, h4⟩

/-- Witness for C3 (amended) at a concrete three-format raw list with a
duplicate key. -/
theorem C3_witness :
    (get_formats_app (some ⟨some "https://youtu.be/v3"⟩)
      (.ok [{ height := some 360, ext := some "mp4", vcodec := some "avc1" },
            { height := some 720, ext := some "mp4", vcodec := some "avc1" },
            { height := some 360, ext := some "mp4", vcodec := some "avc1",
              format_id := some "dup" }])).formats.length ≤ 20 ∧
    List.Pairwise (fun a b => (a.type = "audio" → b.type = "audio") ∧
      (a.type ≠ "audio" → b.type ≠ "audio" → b.height.getD 0 ≤ a.height.getD 0))
      (get_formats_app (some ⟨some "https://youtu.be/v3"⟩)
        (.ok [{ height := some 360, ext := some "mp4", vcodec := some "avc1" },
              { height := some 720, ext := some "mp4", vcodec := some "avc1" },
              { height := some 360, ext := some "mp4", vcodec := some "avc1",
                format_id := some "dup" }])).formats ∧
    List.Pairwise (fun a b => eKey a ≠ eKey b)
      (get_formats_app (some ⟨some "https://youtu.be/v3"⟩)
        (.ok [{ height := some 360, ext := some "mp4", vcodec := some "avc1" },
              { height := some 720, ext := some "mp4", vcodec := some "avc1" },
              { height := some 360, ext := some "mp4", vcodec := some "avc1",
                format_id := some "dup" }])).formats ∧
    ∀ e ∈ (get_formats_app (some ⟨some "https://youtu.be/v3"⟩)
        (.ok [{ height := some 360, ext := some "mp4", vcodec := some "avc1" },
              { height := some 720, ext := some "mp4", vcodec := some "avc1" },
              { height := some 360, ext := some "mp4", vcodec := some "avc1",
                format_id := some "dup" }])).formats,
      ∃ pre f post,
        ([{ height := some 360, ext := some "mp4", vcodec := some "avc1" },
          { height := some 720, ext := some "mp4", vcodec := some "avc1" },
          { height := some 360, ext := some "mp4", vcodec := some "avc1",
            format_id := some "dup" }] : List RawFormat) = pre ++ f :: post ∧
        e = shapeFormat f ∧ ∀ g ∈ pre, formatKey g ≠ formatKey f :=
  C3_formats_pipeline "https://youtu.be/v3"
    [{ height := some 360, ext := some "mp4", vcodec := some "avc1" },
     { height := some 720, ext := some "mp4", vcodec := some "avc1" },
     { height := some 360, ext := some "mp4", vcodec := some "avc1",
       format_id := some "dup" }] (by decide)
